import Mathlib

/-!
Verification of the rframe query-compilation and indexing core.

The Python sources embedded here are src/rframe/rframe.py (the frame facade:
sel, set, concat, loc, at) and src/rframe/interfaces/rest.py (the REST backend
interface: serializable_interval, compile_query dispatch, from_url).

Python runtime values are modelled by the inductive type PyVal; Python dicts
are association lists with in-place-update semantics (dictSet/dictUpdate);
code that can raise returns Except PyError.
-/

namespace RFrame

/-- Python-like runtime values appearing in the rframe core: scalars, tuples,
lists, string-keyed dicts, slice objects, plain attribute-bearing objects, and
schema instances (pydantic models). -/
inductive PyVal : Type where
  | int : Int → PyVal
  | str : String → PyVal
  | bool : Bool → PyVal
  | pynone : PyVal
  | tuple : List PyVal → PyVal
  | list : List PyVal → PyVal
  | dict : List (String × PyVal) → PyVal
  | slice : PyVal → PyVal → PyVal
  | obj : List (String × PyVal) → PyVal
  | inst : List (String × PyVal) → PyVal

/-- A record / document: a Python dict with string keys, kept as an ordered
association list (Python dicts preserve insertion order). -/
abbrev Rec := List (String × PyVal)

/-- Python exceptions raised by the embedded code. NotImplementedError is the
concrete exception the source uses for the spec's UnsupportedBackend and
UnsupportedIndexKind error kinds; KeyError carries the message and covers the
spec's IllDefinedLocation, ColumnNotFound and EmptySelection kinds. -/
inductive PyError : Type where
  | keyError : String → PyError
  | valueError : String → PyError
  | typeError : String → PyError
  | unboundLocalError : String → PyError
  | attributeError : String → PyError
  | notImplementedError : PyError
  | insertionError : String → PyError
  deriving DecidableEq

mutual

/-- Boolean equality of runtime values, modelling Python's structural
comparison with the == operator. -/
def pyBeq : PyVal → PyVal → Bool
  | .int a, .int b => a == b
  | .str a, .str b => a == b
  | .bool a, .bool b => a == b
  | .pynone, .pynone => true
  | .tuple a, .tuple b => pyBeqList a b
  | .list a, .list b => pyBeqList a b
  | .dict a, .dict b => pyBeqKVs a b
  | .slice a1 a2, .slice b1 b2 => pyBeq a1 b1 && pyBeq a2 b2
  | .obj a, .obj b => pyBeqKVs a b
  | .inst a, .inst b => pyBeqKVs a b
  | _, _ => false

/-- Element-wise Boolean equality of value lists. -/
def pyBeqList : List PyVal → List PyVal → Bool
  | [], [] => true
  | x :: xs, y :: ys => pyBeq x y && pyBeqList xs ys
  | _, _ => false

/-- Pair-wise Boolean equality of association lists. -/
def pyBeqKVs : List (String × PyVal) → List (String × PyVal) → Bool
  | [], [] => true
  | (k1, v1) :: xs, (k2, v2) :: ys => k1 == k2 && pyBeq v1 v2 && pyBeqKVs xs ys
  | _, _ => false

end

/-- Lookup of a key in a Python dict (association list, first match). -/
def listLookup (k : String) : List (String × PyVal) → Option PyVal
  | [] => Option.none
  | (k', v) :: rest => if k' = k then some v else listLookup k rest

/-- Python `d[k] = v`: replace the value at an existing key in place, else
append the new key at the end. -/
def dictSet : List (String × PyVal) → String → PyVal → List (String × PyVal)
  | [], k, v => [(k, v)]
  | (k', v') :: rest, k, v =>
    if k' = k then (k, v) :: rest else (k', v') :: dictSet rest k v

/-- Python `d.update(u)`: apply dictSet for each pair of u in order. -/
def dictUpdate (d u : List (String × PyVal)) : List (String × PyVal) :=
  u.foldl (fun acc kv => dictSet acc kv.1 kv.2) d

mutual

/-- Embedding of serializable_interval (src/rframe/interfaces/rest.py lines
20-37). Branches in source order: list recurses element-wise; a tuple is
unpacked as a pair (a tuple whose length is not 2 raises ValueError); a dict is
read at keys "left" and "right" (KeyError when absent, "left" first); a slice
contributes its start and stop; an object exposing both left and right
attributes contributes them; anything else is a scalar with equal bounds. -/
def serializable_interval : PyVal → Except PyError PyVal
  | .list xs => Except.map PyVal.list (si_elems xs)
  | .tuple [l, r] => .ok (.dict [("left", l), ("right", r)])
  | .tuple _ => .error (.valueError "unpack to left, right expected 2 values")
  | .dict kvs =>
    match listLookup "left" kvs with
    | Option.none => .error (.keyError "left")
    | some l =>
      match listLookup "right" kvs with
      | Option.none => .error (.keyError "right")
      | some r => .ok (.dict [("left", l), ("right", r)])
  | .slice a b => .ok (.dict [("left", a), ("right", b)])
  | .obj fields =>
    match listLookup "left" fields, listLookup "right" fields with
    | some l, some r => .ok (.dict [("left", l), ("right", r)])
    | _, _ => .ok (.dict [("left", .obj fields), ("right", .obj fields)])
  | .inst fields =>
    match listLookup "left" fields, listLookup "right" fields with
    | some l, some r => .ok (.dict [("left", l), ("right", r)])
    | _, _ => .ok (.dict [("left", .inst fields), ("right", .inst fields)])
  | x => .ok (.dict [("left", x), ("right", x)])

/-- List comprehension of serializable_interval over the elements, raising at
the first failing element. -/
def si_elems : List PyVal → Except PyError (List PyVal)
  | [] => .ok []
  | x :: xs =>
    match serializable_interval x with
    | .error e => .error e
    | .ok y =>
      match si_elems xs with
      | .error e => .error e
      | .ok ys => .ok (y :: ys)

end

/-- Predicate for the inputs that reach the final scalar branch of
serializable_interval (not a list, tuple, dict or slice, and not an object
exposing both bounds). -/
def isScalarInterval : PyVal → Bool
  | .list _ => false
  | .tuple _ => false
  | .dict _ => false
  | .slice _ _ => false
  | .obj fields =>
    !((listLookup "left" fields).isSome && (listLookup "right" fields).isSome)
  | .inst fields =>
    !((listLookup "left" fields).isSome && (listLookup "right" fields).isSome)
  | _ => true

/-- The five interval-like shapes of the spec: pair (tuple of exactly two),
labeled pair (dict carrying both bounds), half-open range (slice), bound
object, and bare scalar. Lists are excluded (they are sequences of intervals,
handled element-wise). -/
def intervalLike : PyVal → Bool
  | .list _ => false
  | .tuple xs => xs.length == 2
  | .dict kvs =>
    (listLookup "left" kvs).isSome && (listLookup "right" kvs).isSome
  | _ => true

example : serializable_interval (.int 3) =
    .ok (.dict [("left", .int 3), ("right", .int 3)]) := rfl

example : serializable_interval (.tuple [.int 0, .int 10]) =
    .ok (.dict [("left", .int 0), ("right", .int 10)]) := rfl

example : serializable_interval (.list [.int 3, .tuple [.int 0, .int 1]]) =
    .ok (.list [.dict [("left", .int 3), ("right", .int 3)],
      .dict [("left", .int 0), ("right", .int 1)]]) := rfl

example : serializable_interval (.tuple [.int 1, .int 2, .int 3]) =
    .error (.valueError "unpack to left, right expected 2 values") := rfl

/-- Modelled from the spec: the index-descriptor classes (Index,
InterpolatingIndex, IntervalIndex, MultiIndex of src/rframe/indexes, a module
not under src). Spec section 3 gives the closed set of variants, each carrying
a field name; a MultiIndex carries an ordered sequence of child descriptors. -/
inductive IndexDescr : Type where
  | idx : String → IndexDescr
  | interpolating : String → IndexDescr
  | intervalIdx : String → IndexDescr
  | multi : String → List IndexDescr → IndexDescr

/-- Field name carried by a descriptor. -/
def IndexDescr.name : IndexDescr → String
  | .idx n => n
  | .interpolating n => n
  | .intervalIdx n => n
  | .multi n _ => n

mutual

/-- Embedding of RestInterface.compile_query dispatch
(src/rframe/interfaces/rest.py lines 51-81), returning the params dict of the
produced RestQuery. Index and InterpolatingIndex compile to one key pairing the
descriptor name with the label; IntervalIndex first canonicalizes the label
with serializable_interval; MultiIndex takes the child labels from the values
of a dict label in order (labels.values(), an AttributeError on a non-dict)
and merges the children through multi_go. -/
def compile_query : IndexDescr → PyVal → Except PyError (List (String × PyVal))
  | .idx n, label => .ok [(n, label)]
  | .interpolating n, label => .ok [(n, label)]
  | .intervalIdx n, label =>
    match serializable_interval label with
    | .error e => .error e
    | .ok iv => .ok [(n, iv)]
  | .multi _ children, .dict kvs => multi_go children (kvs.map Prod.snd) []
  | .multi _ _, _ => .error (.attributeError "values")

/-- Loop body of RestInterface.multi_query (src/rframe/interfaces/rest.py
lines 75-79): for each descriptor zipped with its label, compile the child and
copy into the accumulated params only the entry at the child's own name; a
compiled child whose params lack that name contributes nothing. -/
def multi_go : List IndexDescr → List PyVal → List (String × PyVal) →
    Except PyError (List (String × PyVal))
  | [], _, params => .ok params
  | _ :: _, [], params => .ok params
  | i :: rest, l :: ls, params =>
    match compile_query i l with
    | .error e => .error e
    | .ok q =>
      match listLookup i.name q with
      | some v => multi_go rest ls (dictSet params i.name v)
      | Option.none => multi_go rest ls params

end

/-- Embedding of RestInterface.multi_query when invoked through the list and
tuple registrations of compile_query (src/rframe/interfaces/rest.py lines
67-70): the raw sequence of descriptors is zipped with the label sequence. -/
def multi_query_list (indexes : List IndexDescr) (labels : List PyVal) :
    Except PyError (List (String × PyVal)) :=
  multi_go indexes labels []

/-- A constructed REST interface, reduced to the client URL; the client object
itself is an external collaborator (spec section 1). -/
structure RestInterfaceModel : Type where
  url : String
  deriving DecidableEq

/-- Character-level prefix test with the semantics of Python's
str.startswith. -/
def charsStartsWith : List Char → List Char → Bool
  | _, [] => true
  | [], _ :: _ => false
  | c :: cs, p :: ps => (c == p) && charsStartsWith cs ps

/-- Embedding of RestInterface.from_url (src/rframe/interfaces/rest.py lines
43-49): a URL starting with the http or https scheme yields an interface bound
to a client for that URL; anything else raises NotImplementedError, the
concrete exception realizing the spec's UnsupportedBackend failure. -/
def from_url (url : String) : Except PyError RestInterfaceModel :=
  if charsStartsWith url.data "http://".data ||
      charsStartsWith url.data "https://".data then
    .ok ⟨url⟩
  else
    .error .notImplementedError

example : from_url "https://example.com" = .ok ⟨"https://example.com"⟩ := rfl
example : from_url "ftp://host" = .error .notImplementedError := rfl

/-- Modelled from the spec: schema.find (the schema module is not under src).
Spec section 6 gives the backend query contract: the documents of the store
matching every supplied label by equality are returned, in store order. The
store itself is modelled as the list of its documents. -/
def find (db : List Rec) (labels : List (String × PyVal)) : List Rec :=
  db.filter (fun r =>
    labels.all (fun kv =>
      match listLookup kv.1 r with
      | some v => pyBeq v kv.2
      | Option.none => false))

/-- Embedding of RemoteFrame.sel_records (src/rframe/rframe.py lines 60-67):
positional labels are zipped with the index field names in declared order,
named labels override and extend them via dict update, and the matching
documents are returned (pandas_dict on each document is the identity here,
documents already being plain dicts). -/
def sel_records (names : List String) (db : List Rec) (args : List PyVal)
    (kwargs : List (String × PyVal)) : List Rec :=
  find db (dictUpdate (names.zip args) kwargs)

/-- Embedding of RemoteFrame.sel (src/rframe/rframe.py lines 98-108) at the
record level: the selection part is sel_records; the pandas shaping
(json_normalize, sort, set_index) is presentation, out of core scope per spec
section 1. -/
def RemoteFrame_sel (names : List String) (db : List Rec) (args : List PyVal)
    (kwargs : List (String × PyVal)) : List Rec :=
  sel_records names db args kwargs

/-- Embedding of LocIndexer.__call__ (src/rframe/rframe.py lines 219-220):
a direct delegation to RemoteFrame.sel with the same labels. -/
def LocIndexer_call (names : List String) (db : List Rec) (args : List PyVal)
    (kwargs : List (String × PyVal)) : List Rec :=
  RemoteFrame_sel names db args kwargs

/-- Embedding of RemoteSeries.sel_values (src/rframe/rframe.py lines 185-187):
select the records, then read the series column off each document
(a document lacking the column raises KeyError). -/
def sel_values (col : String) (names : List String) (db : List Rec)
    (args : List PyVal) : Except PyError (List PyVal) :=
  (sel_records names db args []).mapM (fun d =>
    match listLookup col d with
    | some v => Except.ok v
    | Option.none => Except.error (.keyError col))

/-- Embedding of RemoteSeries.sel_value (src/rframe/rframe.py lines 189-193):
first value of sel_values, raising KeyError when the selection is empty — the
concrete exception realizing the spec's EmptySelection failure. -/
def sel_value (col : String) (names : List String) (db : List Rec)
    (args : List PyVal) : Except PyError PyVal :=
  match sel_values col names db args with
  | .error e => .error e
  | .ok [] => .error (.keyError "Selection returned no values.")
  | .ok (v :: _) => .ok v

/-- Merge step of RemoteFrame.set (src/rframe/rframe.py lines 112-113):
labels = dict(zip(index names, positional args)); kwargs.update(labels). The
update writes the positional labels into the named ones, so a field given both
ways keeps its positional value. -/
def set_merge (names : List String) (args : List PyVal)
    (kwargs : List (String × PyVal)) : List (String × PyVal) :=
  dictUpdate kwargs (names.zip args)

/-- Embedding of RemoteFrame.set (src/rframe/rframe.py lines 110-115): build
the merged field dict, construct the schema document from it, and persist it.
Schema construction and save are external collaborators (the schema module is
not under src); modelled from the spec: the document holds exactly the merged
fields and insert appends it to the store. Returns the document together with
the updated store. -/
def RemoteFrame_set (names : List String) (db : List Rec) (args : List PyVal)
    (kwargs : List (String × PyVal)) : Rec × List Rec :=
  let doc := set_merge names args kwargs
  (doc, db ++ [doc])

/-- First statement of the loop body of RemoteFrame.concat
(src/rframe/rframe.py line 128): the expression
isinstance(doc, self, self.schema) never completes normally — evaluating the
name doc raises UnboundLocalError while doc is unbound, and with doc bound the
three-argument isinstance call raises TypeError. The Empty value type records
that no normal completion exists. -/
def concat_isinstance_check (docBound : Option Rec) : Except PyError Empty :=
  match docBound with
  | Option.none =>
    .error (.unboundLocalError
      "local variable 'doc' referenced before assignment")
  | some _ => .error (.typeError "isinstance expected 2 arguments, got 3")

/-- Loop of RemoteFrame.concat (src/rframe/rframe.py lines 127-135) over the
remaining records, threading the binding state of the local variable doc and
the succeeded, failed and errors accumulators. Each iteration begins with the
isinstance check, which always raises, so the loop only completes on an empty
record list. -/
def concat_go : List Rec → Option Rec → List Rec × List Rec × List String →
    Except PyError (List Rec × List Rec × List String)
  | [], _, acc => .ok acc
  | _ :: _, docBound, _ =>
    match concat_isinstance_check docBound with
    | .error e => .error e
    | .ok h => h.elim

/-- Embedding of RemoteFrame.concat (src/rframe/rframe.py lines 117-137) on a
list of records (the DataFrame branch converts to such a list first): run the
insertion loop with doc initially unbound and empty accumulators. -/
def RemoteFrame_concat (records : List Rec) :
    Except PyError (List Rec × List Rec × List String) :=
  concat_go records Option.none ([], [], [])

/-- Python list wrapping of a non-tuple index: tuple components, else a
one-component tuple. -/
def asTupleList : PyVal → List PyVal
  | .tuple xs => xs
  | v => [v]

/-- Python membership of a value in a list of column-name strings. -/
def pyvalIsStrIn (cols : List String) : PyVal → Bool
  | .str s => cols.contains s
  | _ => false

/-- Column-spec normalization in LocIndexer.__getitem__ (src/rframe/rframe.py
lines 227-228): a non-list column spec is wrapped into a singleton list. -/
def asColList : PyVal → List PyVal
  | .list cs => cs
  | c => [c]

/-- Embedding of the resolution logic of LocIndexer.__getitem__
(src/rframe/rframe.py lines 222-240): produce the index components handed to
sel and the value the dataframe is subscripted with afterwards (none for no
projection). A two-component subscript splits into index and column spec; the
column spec is kept as the projection only when every named column is
recognized, otherwise it is folded back into the index. Any other tuple whose
length is the number of columns plus one splits off its last element as a
single-column projection. Finally a non-tuple index is wrapped. -/
def loc_resolve (cols : List String) (index : PyVal) :
    List PyVal × Option PyVal :=
  match index with
  | .tuple [i0, c0] =>
    let colsL := asColList c0
    if colsL.all (pyvalIsStrIn cols) then
      (asTupleList i0, some (.list colsL))
    else
      (asTupleList i0 ++ colsL, Option.none)
  | .tuple xs =>
    if xs.length = cols.length + 1 then
      (xs.dropLast, xs.getLast?)
    else
      (xs, Option.none)
  | v => ([v], Option.none)

/-- Value normalization of LocIndexer.__setitem__ (src/rframe/rframe.py lines
252-256): a schema instance is replaced by its field dict, then anything that
is not a dict is wrapped as the single named field "value". -/
def setitem_value : PyVal → List (String × PyVal)
  | .inst fields => fields
  | .dict kvs => kvs
  | v => [("value", v)]

/-- Embedding of LocIndexer.__setitem__ (src/rframe/rframe.py lines 248-258):
wrap a non-tuple key as a one-component positional tuple, normalize the value
to a named-field dict, and delegate to RemoteFrame.set. -/
def LocIndexer_setitem (names : List String) (db : List Rec) (key : PyVal)
    (value : PyVal) : Rec × List Rec :=
  RemoteFrame_set names db (asTupleList key) (setitem_value value)

/-- Embedding of RemoteSeries.set (src/rframe/rframe.py lines 195-198): the
method unconditionally raises InsertionError without touching the store (the
db argument is ignored, as the source never reads self.obj.db here). -/
def RemoteSeries_set (_db : List Rec) (_args : List PyVal)
    (_kwargs : List (String × PyVal)) : Except PyError PyVal :=
  .error (.insertionError
    "Cannot set values on a RemoteSeries object,use the RemoteDataFrame.")

/-- Index components rejected by the at indexer as non-scalar: slice, list and
None (src/rframe/rframe.py line 278). -/
def isNonScalarLabel : PyVal → Bool
  | .slice _ _ => true
  | .list _ => true
  | .pynone => true
  | _ => false

/-- Embedding of AtIndexer.__getitem__ (src/rframe/rframe.py lines 261-284).
In source order: the key must be a two-component tuple of index and column
(KeyError "ill-defined location" otherwise); the column must be a declared
column (KeyError "not found" otherwise); a non-tuple index is wrapped; an
index holding a slice, list or None component raises KeyError "not unique
index". The source then builds KeyError for an index shorter than the list of
index fields but never raises it (line 282 lacks a raise statement), so
control falls through to the column series lookup sel_value. -/
def AtIndexer_getitem (names cols : List String) (db : List Rec)
    (key : PyVal) : Except PyError PyVal :=
  match key with
  | .tuple [index0, column] =>
    match column with
    | .str s =>
      if cols.contains s then
        let index := asTupleList index0
        if index.any isNonScalarLabel then
          .error (.keyError "not unique index")
        else
          sel_value s names db index
      else
        .error (.keyError "column not found")
    | _ => .error (.keyError "column not found")
  | _ => .error (.keyError "ill-defined location")

/-- Lookup after a single Python-style dict assignment: the assigned key reads
the new value, every other key is unchanged. -/
theorem listLookup_dictSet (d : List (String × PyVal)) (k' : String)
    (v : PyVal) (k : String) :
    listLookup k (dictSet d k' v) =
      if k' = k then some v else listLookup k d := by
  induction d with
  | nil =>
    by_cases h : k' = k <;> simp [dictSet, listLookup, h]
  | cons p rest ih =>
    obtain ⟨k0, v0⟩ := p
    by_cases h0 : k0 = k'
    · subst h0
      by_cases h : k0 = k <;> simp [dictSet, listLookup, h]
    · by_cases h : k0 = k
      · subst h
        have hne : k' ≠ k0 := fun hh => h0 hh.symm
        simp [dictSet, listLookup, h0, hne]
      · by_cases h' : k' = k
        · subst h'
          simp [dictSet, listLookup, h0, h, ih]
        · simp [dictSet, listLookup, h0, h, ih, h']

/-- A key looks up to nothing exactly when no pair of the dict carries it. -/
theorem listLookup_eq_none_iff (u : List (String × PyVal)) (k : String) :
    listLookup k u = Option.none ↔ ∀ p ∈ u, p.1 ≠ k := by
  induction u with
  | nil => simp [listLookup]
  | cons p rest ih =>
    obtain ⟨k0, v0⟩ := p
    by_cases h : k0 = k
    · subst h
      simp [listLookup]
    · simp [listLookup, h, ih]

/-- Updating with a dict not carrying a key leaves that key's lookup
unchanged. -/
theorem listLookup_dictUpdate_of_none (u : List (String × PyVal)) :
    ∀ (d : List (String × PyVal)) (k : String),
      listLookup k u = Option.none →
      listLookup k (dictUpdate d u) = listLookup k d := by
  induction u with
  | nil => intro d k _; rfl
  | cons p rest ih =>
    intro d k h
    obtain ⟨k0, v0⟩ := p
    by_cases hk : k0 = k
    · simp [listLookup, hk] at h
    · simp only [listLookup, if_neg hk] at h
      have : dictUpdate d ((k0, v0) :: rest) =
          dictUpdate (dictSet d k0 v0) rest := rfl
      rw [this, ih (dictSet d k0 v0) k h, listLookup_dictSet, if_neg hk]

/-- Updating with a dict whose keys are distinct: a key present in the update
reads its updated value afterwards. -/
theorem listLookup_dictUpdate_of_mem (u : List (String × PyVal)) :
    ∀ (d : List (String × PyVal)) (k : String) (v : PyVal),
      (u.map Prod.fst).Nodup → listLookup k u = some v →
      listLookup k (dictUpdate d u) = some v := by
  induction u with
  | nil => intro d k v _ h; simp [listLookup] at h
  | cons p rest ih =>
    intro d k v hnd h
    obtain ⟨k0, v0⟩ := p
    simp only [List.map_cons, List.nodup_cons] at hnd
    by_cases hk : k0 = k
    · subst hk
      have hv : v0 = v := by simpa [listLookup] using h
      subst hv
      have hrest : listLookup k0 rest = Option.none := by
        rw [listLookup_eq_none_iff]
        intro p hp hpk
        exact hnd.1 (hpk ▸ List.mem_map_of_mem Prod.fst hp)
      have : dictUpdate d ((k0, v0) :: rest) =
          dictUpdate (dictSet d k0 v0) rest := rfl
      rw [this, listLookup_dictUpdate_of_none rest (dictSet d k0 v0) k0 hrest,
        listLookup_dictSet]
      simp
    · simp only [listLookup, if_neg hk] at h
      have : dictUpdate d ((k0, v0) :: rest) =
          dictUpdate (dictSet d k0 v0) rest := rfl
      rw [this]
      exact ih (dictSet d k0 v0) k v hnd.2 h

/-- Keys of a zip of names with labels form a sublist of the names. -/
theorem zip_fst_sublist (names : List String) :
    ∀ args : List PyVal, ((names.zip args).map Prod.fst).Sublist names := by
  induction names with
  | nil =>
    intro args
    simp
  | cons n ns ih =>
    intro args
    cases args with
    | nil => simp
    | cons a as => simpa using List.Sublist.cons₂ n (ih as)

/-- Keys of a zip of names with labels are distinct whenever the names
are. -/
theorem nodup_zip_fst (names : List String) (args : List PyVal)
    (h : names.Nodup) : ((names.zip args).map Prod.fst).Nodup :=
  List.Nodup.sublist (zip_fst_sublist names args) h

/-- Every key of a merged composite parameter set either names one of the
zipped child descriptors or was already present in the accumulator. -/
theorem multi_go_keys (idxs : List IndexDescr) :
    ∀ (labels : List PyVal) (params out : List (String × PyVal)),
      multi_go idxs labels params = .ok out →
      ∀ k v, listLookup k out = some v →
        k ∈ idxs.map IndexDescr.name ∨ ∃ w, listLookup k params = some w := by
  induction idxs with
  | nil =>
    intro labels params out h k v hk
    have hp : params = out := by
      cases labels <;> simpa [multi_go] using h
    subst hp
    exact Or.inr ⟨v, hk⟩
  | cons i rest ih =>
    intro labels params out h k v hk
    cases labels with
    | nil =>
      have hp : params = out := by simpa [multi_go] using h
      subst hp
      exact Or.inr ⟨v, hk⟩
    | cons l ls =>
      rw [multi_go] at h
      split at h
      next e heq => cases h
      next q heq =>
        split at h
        next w hl =>
          rcases ih ls (dictSet params i.name w) out h k v hk with
            h1 | ⟨w', hw'⟩
          · exact Or.inl (List.mem_cons_of_mem _ h1)
          · rw [listLookup_dictSet] at hw'
            by_cases hkk : i.name = k
            · exact Or.inl (by simp [hkk.symm])
            · rw [if_neg hkk] at hw'
              exact Or.inr ⟨w', hw'⟩
        next hl =>
          rcases ih ls params out h k v hk with h1 | h2
          · exact Or.inl (List.mem_cons_of_mem _ h1)
          · exact Or.inr h2

/-- Claim C4: compiling a composite merges, for each child descriptor zipped
with its label in declared order, only the entry at that child's own name.
The spec's example of a value child a and an interval child b with labels
5 and (0, 10) yields exactly the parameters a and b (first conjunct); a child
whose compilation yields no parameter at its own name — here a nested
composite, whose compiled parameters carry its grandchildren's names, not its
own — contributes nothing and raises no error (second conjunct); and every
key of a merged parameter set names one of the children (third conjunct). -/
theorem claim_C4 :
    (multi_query_list [.idx "a", .intervalIdx "b"]
        [.int 5, .tuple [.int 0, .int 10]] =
      .ok [("a", .int 5),
        ("b", .dict [("left", .int 0), ("right", .int 10)])]) ∧
    (multi_query_list [.idx "a", .multi "m" [.idx "c"], .idx "b"]
        [.int 5, .dict [("c", .int 9)], .int 7] =
      .ok [("a", .int 5), ("b", .int 7)]) ∧
    (∀ idxs labels out, multi_query_list idxs labels = .ok out →
      ∀ k v, listLookup k out = some v → k ∈ idxs.map IndexDescr.name) := by
  refine ⟨rfl, rfl, ?_⟩
  intro idxs labels out h k v hk
  rcases multi_go_keys idxs labels [] out h k v hk with h1 | ⟨w, hw⟩
  · exact h1
  · simp [listLookup] at hw

/-- Witness for claim C4: the key of a compiled singleton composite names its
only child. -/
theorem claim_C4_witness :
    "a" ∈ ([IndexDescr.idx "a"].map IndexDescr.name) :=
  claim_C4.2.2 [.idx "a"] [.int 5] [("a", .int 5)] rfl "a" (.int 5) rfl

/-- Claim C7: the loc indexer called with labels delegates to sel with those
labels (first conjunct); for the two-component subscript form, membership of
the column spec in the known column set decides first — when every named
column is recognized the index part alone is selected and the columns are
projected (second conjunct), and only otherwise is the column spec folded
back into the index with no projection applied (third conjunct); any other
subscript tuple whose length equals the number of columns plus one is
resolved by splitting off its last element as the single projected column
(fourth conjunct). -/
theorem claim_C7 (cols : List String) :
    (∀ (names : List String) (db : List Rec) (args : List PyVal)
        (kwargs : List (String × PyVal)),
      LocIndexer_call names db args kwargs =
        RemoteFrame_sel names db args kwargs) ∧
    (∀ i0 c0, (asColList c0).all (pyvalIsStrIn cols) = true →
      loc_resolve cols (.tuple [i0, c0]) =
        (asTupleList i0, some (.list (asColList c0)))) ∧
    (∀ i0 c0, (asColList c0).all (pyvalIsStrIn cols) = false →
      loc_resolve cols (.tuple [i0, c0]) =
        (asTupleList i0 ++ asColList c0, Option.none)) ∧
    (∀ xs : List PyVal, xs.length ≠ 2 → xs.length = cols.length + 1 →
      loc_resolve cols (.tuple xs) = (xs.dropLast, xs.getLast?)) := by
  refine ⟨fun _ _ _ _ => rfl, ?_, ?_, ?_⟩
  · intro i0 c0 h
    simp [loc_resolve, h]
  · intro i0 c0 h
    simp [loc_resolve, h]
  · intro xs h2 hlen
    rcases xs with _ | ⟨a, _ | ⟨b, _ | ⟨c, t⟩⟩⟩
    · exact absurd hlen (by simp)
    · simp only [loc_resolve]
      rw [if_pos hlen]
    · exact absurd rfl h2
    · simp only [loc_resolve]
      rw [if_pos hlen]

/-- Witness for claim C7: over one known column, a pair subscript whose
second element is not a recognized column resolves as two index components
with no projection. -/
theorem claim_C7_witness :
    loc_resolve ["col"] (.tuple [.int 5, .int 7]) =
      (asTupleList (.int 5) ++ asColList (.int 7), Option.none) :=
  (claim_C7 ["col"]).2.2.1 (.int 5) (.int 7) rfl

/-- Claim C2 as amended: in RemoteFrame.set, positional labels (bound to the
index fields in declared order) are primary and named labels only supply the
fields not given positionally — kwargs.update(labels) on rframe.py line 113
writes the positional labels over the named ones, so a field given both ways
persists its positional value. -/
theorem claim_C2 (names : List String) (db : List Rec) (args : List PyVal)
    (kwargs : List (String × PyVal)) (hnd : names.Nodup) :
    (∀ k v, listLookup k (names.zip args) = some v →
      listLookup k (RemoteFrame_set names db args kwargs).1 = some v) ∧
    (∀ k, listLookup k (names.zip args) = Option.none →
      listLookup k (RemoteFrame_set names db args kwargs).1 =
        listLookup k kwargs) := by
  constructor
  · intro k v h
    exact listLookup_dictUpdate_of_mem (names.zip args) kwargs k v
      (nodup_zip_fst names args hnd) h
  · intro k h
    exact listLookup_dictUpdate_of_none (names.zip args) kwargs k h

/-- Counterexample to claim C2 as stated: with one index field a given
positionally as 1 and by name as 2, the persisted record carries the
positional 1, not the named 2 the claim requires. -/
theorem claim_C2_counterexample :
    (RemoteFrame_set ["a"] [] [.int 1] [("a", .int 2)]).1 =
      [("a", .int 1)] ∧
    (RemoteFrame_set ["a"] [] [.int 1] [("a", .int 2)]).1 ≠
      [("a", .int 2)] := by
  refine ⟨rfl, ?_⟩
  intro h
  have h' : ([("a", PyVal.int 1)] : List (String × PyVal)) =
      [("a", PyVal.int 2)] := h
  simp at h'

/-- Witness for claim C2 at concrete labels. -/
theorem claim_C2_witness :
    listLookup "b" (RemoteFrame_set ["a"] [] [.int 1] [("b", .int 7)]).1 =
      listLookup "b" [("b", .int 7)] :=
  (claim_C2 ["a"] [] [.int 1] [("b", .int 7)] (by simp)).2 "b" rfl

/-- Claim C10: assignment through the loc indexer delegates to
RemoteFrame.set after normalizing both sides — a schema-instance value
contributes its field dict, a dict value is passed as the named fields, any
other value is wrapped as the single named field "value", and a non-tuple key
becomes a one-component positional tuple. -/
theorem claim_C10 (names : List String) (db : List Rec) (key value : PyVal) :
    (∀ fields, value = .inst fields →
      LocIndexer_setitem names db key value =
        RemoteFrame_set names db (asTupleList key) fields) ∧
    (∀ kvs, value = .dict kvs →
      LocIndexer_setitem names db key value =
        RemoteFrame_set names db (asTupleList key) kvs) ∧
    ((∀ fields, value ≠ .inst fields) → (∀ kvs, value ≠ .dict kvs) →
      LocIndexer_setitem names db key value =
        RemoteFrame_set names db (asTupleList key) [("value", value)]) ∧
    ((∀ xs, key ≠ .tuple xs) → asTupleList key = [key]) := by
  refine ⟨?_, ?_, ?_, ?_⟩
  · intro fields h
    subst h
    rfl
  · intro kvs h
    subst h
    rfl
  · intro h1 h2
    have hv : setitem_value value = [("value", value)] := by
      cases value with
      | inst fields => exact absurd rfl (h1 fields)
      | dict kvs => exact absurd rfl (h2 kvs)
      | int n => rfl
      | str s => rfl
      | bool b => rfl
      | pynone => rfl
      | tuple xs => rfl
      | list xs => rfl
      | slice a b => rfl
      | obj fields => rfl
    show RemoteFrame_set names db (asTupleList key) (setitem_value value) = _
    rw [hv]
  · intro hk
    cases key with
    | tuple xs => exact absurd rfl (hk xs)
    | int n => rfl
    | str s => rfl
    | bool b => rfl
    | pynone => rfl
    | list xs => rfl
    | dict kvs => rfl
    | slice a b => rfl
    | obj fields => rfl
    | inst fields => rfl

/-- Witness for claim C10: a plain value assigned through a scalar key is
wrapped as the named field "value" and handed to RemoteFrame.set. -/
theorem claim_C10_witness :
    LocIndexer_setitem ["a"] [] (.int 5) (.int 3) =
      RemoteFrame_set ["a"] [] (asTupleList (.int 5)) [("value", .int 3)] :=
  (claim_C10 ["a"] [] (.int 5) (.int 3)).2.2.1
    (fun _ h => PyVal.noConfusion h) (fun _ h => PyVal.noConfusion h)

/-- Canonicalization succeeds on every interval-like input, yielding a
left/right dict whose bounds are equal whenever the input reaches the scalar
branch. -/
theorem si_canon (x : PyVal) (h : intervalLike x = true) :
    ∃ l r, serializable_interval x = .ok (.dict [("left", l), ("right", r)]) ∧
      (isScalarInterval x = true → l = r) := by
  cases x with
  | int n => exact ⟨.int n, .int n, rfl, fun _ => rfl⟩
  | str s => exact ⟨.str s, .str s, rfl, fun _ => rfl⟩
  | bool b => exact ⟨.bool b, .bool b, rfl, fun _ => rfl⟩
  | pynone => exact ⟨.pynone, .pynone, rfl, fun _ => rfl⟩
  | tuple xs =>
    rcases xs with _ | ⟨a, _ | ⟨b, _ | ⟨c, t⟩⟩⟩
    · simp [intervalLike] at h
    · simp [intervalLike] at h
    · exact ⟨a, b, rfl, fun hs => Bool.noConfusion hs⟩
    · simp [intervalLike] at h
  | list xs => simp [intervalLike] at h
  | dict kvs =>
    simp only [intervalLike, Bool.and_eq_true, Option.isSome_iff_exists] at h
    obtain ⟨⟨l, hl⟩, ⟨r, hr⟩⟩ := h
    refine ⟨l, r, ?_, fun hs => Bool.noConfusion hs⟩
    simp [serializable_interval, hl, hr]
  | slice a b => exact ⟨a, b, rfl, fun hs => Bool.noConfusion hs⟩
  | obj fields =>
    cases hl : listLookup "left" fields with
    | none =>
      refine ⟨.obj fields, .obj fields, ?_, fun _ => rfl⟩
      simp [serializable_interval, hl]
    | some l =>
      cases hr : listLookup "right" fields with
      | none =>
        refine ⟨.obj fields, .obj fields, ?_, fun _ => rfl⟩
        simp [serializable_interval, hl, hr]
      | some r =>
        refine ⟨l, r, ?_, ?_⟩
        · simp [serializable_interval, hl, hr]
        · intro hs
          simp [isScalarInterval, hl, hr] at hs
  | inst fields =>
    cases hl : listLookup "left" fields with
    | none =>
      refine ⟨.inst fields, .inst fields, ?_, fun _ => rfl⟩
      simp [serializable_interval, hl]
    | some l =>
      cases hr : listLookup "right" fields with
      | none =>
        refine ⟨.inst fields, .inst fields, ?_, fun _ => rfl⟩
        simp [serializable_interval, hl, hr]
      | some r =>
        refine ⟨l, r, ?_, ?_⟩
        · simp [serializable_interval, hl, hr]
        · intro hs
          simp [isScalarInterval, hl, hr] at hs

/-- Re-normalizing a canonical left/right dict returns it unchanged. -/
theorem si_idem_canon (l r : PyVal) :
    serializable_interval (.dict [("left", l), ("right", r)]) =
      .ok (.dict [("left", l), ("right", r)]) := rfl

/-- Claim C5 as amended: on each of the five interval-like shapes — pair,
labeled pair, half-open range, bound object, bare scalar — normalization
returns a canonical left/right form whose bounds are equal whenever the input
was a bare scalar (equal bounds can also arise from non-scalar inputs such as
the pair (5, 5), so "whenever" cannot be strengthened to "exactly when"), and
normalization is idempotent: re-applied to the canonical form it returns that
form unchanged. -/
theorem claim_C5 (x : PyVal) (h : intervalLike x = true) :
    ∃ l r, serializable_interval x = .ok (.dict [("left", l), ("right", r)]) ∧
      (isScalarInterval x = true → l = r) ∧
      serializable_interval (.dict [("left", l), ("right", r)]) =
        .ok (.dict [("left", l), ("right", r)]) := by
  obtain ⟨l, r, h1, h2⟩ := si_canon x h
  exact ⟨l, r, h1, h2, si_idem_canon l r⟩

/-- Counterexample to claim C5 as stated: the non-scalar pair (5, 5)
normalizes to a form with equal bounds, so equal bounds do not characterize
scalar inputs. -/
theorem claim_C5_counterexample :
    serializable_interval (.tuple [.int 5, .int 5]) =
      .ok (.dict [("left", .int 5), ("right", .int 5)]) ∧
    isScalarInterval (.tuple [.int 5, .int 5]) = false :=
  ⟨rfl, rfl⟩

/-- Witness for claim C5 at the half-open range slice(0, 10). -/
theorem claim_C5_witness :
    ∃ l r, serializable_interval (.slice (.int 0) (.int 10)) =
        .ok (.dict [("left", l), ("right", r)]) ∧
      (isScalarInterval (.slice (.int 0) (.int 10)) = true → l = r) ∧
      serializable_interval (.dict [("left", l), ("right", r)]) =
        .ok (.dict [("left", l), ("right", r)]) :=
  claim_C5 (.slice (.int 0) (.int 10)) rfl

/-- Element-wise canonicalization of a list of interval-like values succeeds
and preserves length and order. -/
theorem si_elems_total (xs : List PyVal) :
    (∀ x ∈ xs, intervalLike x = true) →
    ∃ ys, si_elems xs = .ok ys ∧ ys.length = xs.length ∧
      List.Forall₂ (fun x y => serializable_interval x = .ok y) xs ys := by
  induction xs with
  | nil =>
    intro _
    exact ⟨[], rfl, rfl, List.Forall₂.nil⟩
  | cons x xs ih =>
    intro h
    obtain ⟨l, r, hx, _⟩ := si_canon x (h x (List.mem_cons_self x xs))
    obtain ⟨ys, hys, hlen, hall⟩ :=
      ih (fun z hz => h z (List.mem_cons_of_mem x hz))
    refine ⟨PyVal.dict [("left", l), ("right", r)] :: ys, ?_,
      by simp [hlen], List.Forall₂.cons hx hall⟩
    simp [si_elems, hx, hys]

/-- Claim C6 as amended: normalization maps a sequence of N interval-like
values (any N, including zero) to the sequence of the N element-wise
canonical forms in the same order; it is not total on arbitrary inputs,
since a tuple whose length is not two raises ValueError during unpacking
(see the counterexample), and a mapping lacking a bound raises KeyError. -/
theorem claim_C6 (xs : List PyVal) (h : ∀ x ∈ xs, intervalLike x = true) :
    ∃ ys : List PyVal, serializable_interval (.list xs) = .ok (.list ys) ∧
      ys.length = xs.length ∧
      List.Forall₂ (fun x y => serializable_interval x = .ok y) xs ys := by
  obtain ⟨ys, hys, hlen, hall⟩ := si_elems_total xs h
  exact ⟨ys, by simp [serializable_interval, hys, Except.map], hlen, hall⟩

/-- Counterexample to claim C6 as stated: normalization has an error case —
a three-component tuple fails to unpack into left and right and raises
ValueError instead of mapping to a canonical form. -/
theorem claim_C6_counterexample :
    serializable_interval (.tuple [.int 1, .int 2, .int 3]) =
      .error (.valueError "unpack to left, right expected 2 values") :=
  rfl

/-- Witness for claim C6 on a concrete two-element sequence. -/
theorem claim_C6_witness :
    ∃ ys : List PyVal,
      serializable_interval (.list [.int 3, .tuple [.int 0, .int 1]]) =
        .ok (.list ys) ∧
      ys.length = ([PyVal.int 3, PyVal.tuple [.int 0, .int 1]]).length ∧
      List.Forall₂ (fun x y => serializable_interval x = .ok y)
        [PyVal.int 3, PyVal.tuple [.int 0, .int 1]] ys :=
  claim_C6 [.int 3, .tuple [.int 0, .int 1]] (by decide)

/-- Claim C1: concat is specified to attempt each record of a batch
independently with partial-failure semantics, returning aligned succeeded,
failed and error sequences. The code instead crashes on the first record of
every non-empty batch: rframe.py line 128 evaluates
isinstance(doc, self, self.schema), reading the local variable doc before any
assignment, so the spec's three-record example raises UnboundLocalError
instead of returning ([r1, r3], [r2], [msg2]); only the empty batch completes
normally. -/
theorem claim_C1 :
    RemoteFrame_concat [[("v", .int 1)], [("v", .int 2)], [("v", .int 3)]] =
      .error (.unboundLocalError
        "local variable 'doc' referenced before assignment") ∧
    RemoteFrame_concat [] = .ok ([], [], []) :=
  ⟨rfl, rfl⟩

/-- Claim C3: for the at indexer, the non-scalar-component, unknown-column and
empty-selection failures behave as claimed (first three conjuncts, over a
single-field index named a with one column col). But an index tuple with fewer
components than the entity's index fields does not fail: rframe.py line 282
constructs KeyError for the under-defined index without raising it, so the
lookup at[(5,), "col"] against the two index fields a, b falls through,
queries with only a constrained, and returns the first matching record's
column value (last conjunct) instead of failing with IllDefinedLocation. -/
theorem claim_C3 :
    AtIndexer_getitem ["a"] ["col"] []
        (.tuple [.tuple [.int 5], .str "col"]) =
      .error (.keyError "Selection returned no values.") ∧
    AtIndexer_getitem ["a"] ["col"] []
        (.tuple [.tuple [.slice .pynone .pynone], .str "col"]) =
      .error (.keyError "not unique index") ∧
    AtIndexer_getitem ["a"] ["col"] []
        (.tuple [.tuple [.int 5], .str "bad"]) =
      .error (.keyError "column not found") ∧
    AtIndexer_getitem ["a", "b"] ["col"]
        [[("a", .int 5), ("b", .int 1), ("col", .int 42)]]
        (.tuple [.tuple [.int 5], .str "col"]) =
      .ok (.int 42) :=
  ⟨rfl, rfl, rfl, rfl⟩

/-- Claim C8: constructing the REST backend interface via from_url succeeds
exactly for URL strings beginning with the http or https scheme, and any
other input such as "ftp://host" fails with NotImplementedError, the concrete
exception realizing the spec's UnsupportedBackend failure. -/
theorem claim_C8 :
    (∀ url : String,
      (∃ c, from_url url = .ok c) ↔
        (charsStartsWith url.data "http://".data = true ∨
          charsStartsWith url.data "https://".data = true)) ∧
    from_url "ftp://host" = .error .notImplementedError := by
  constructor
  · intro url
    constructor
    · intro ⟨c, hc⟩
      by_contra hn
      push_neg at hn
      unfold from_url at hc
      rw [if_neg] at hc
      · cases hc
      · simp only [Bool.or_eq_true]
        intro h
        rcases h with h | h
        · exact hn.1 h
        · exact hn.2 h
    · intro h
      refine ⟨⟨url⟩, ?_⟩
      unfold from_url
      rw [if_pos]
      simp only [Bool.or_eq_true]
      rcases h with h | h
      · exact Or.inl h
      · exact Or.inr h
  · rfl

/-- Witness for claim C8 at a concrete URL. -/
theorem claim_C8_witness :
    (∃ c, from_url "https://example.com" = .ok c) ↔
      (charsStartsWith "https://example.com".data "http://".data = true ∨
        charsStartsWith "https://example.com".data "https://".data = true) :=
  claim_C8.1 "https://example.com"

/-- Claim C9: RemoteSeries.set raises InsertionError for every combination of
arguments, unconditionally and without touching the backend store — the
result is the same fixed error whatever db, positional labels and named
labels are supplied. -/
theorem claim_C9 :
    ∀ (db : List Rec) (args : List PyVal) (kwargs : List (String × PyVal)),
      RemoteSeries_set db args kwargs =
        .error (.insertionError
          "Cannot set values on a RemoteSeries object,use the RemoteDataFrame.") :=
  fun _ _ _ => rfl

/-- Witness for claim C9 at concrete arguments. -/
theorem claim_C9_witness :
    RemoteSeries_set [[("a", .int 1)]] [.int 2] [("b", .int 3)] =
      .error (.insertionError
        "Cannot set values on a RemoteSeries object,use the RemoteDataFrame.") :=
  claim_C9 [[("a", .int 1)]] [.int 2] [("b", .int 3)]

end RFrame
